import Mathlib

/-!
Verification development for the `excelToSQL_conv` repository.

The repository contains two variants of one pipeline:
* `xls_to_sql.py`    — the original variant (`runV2` below),
* `xls_to_sql_v1.py` — the fixed variant (`runV1` below).

Both read a spreadsheet, clean the cells, classify column types, and emit a
SQL script (DROP / CREATE / START TRANSACTION / INSERTs / COMMIT).

Modelling conventions:
* A loaded table is a header (list of column names) plus rows of cells.
  A cell is `Option String`: `none` models a cell the loader read as NaN
  (an empty spreadsheet cell), `some s` a cell whose loaded value prints
  as the text `s`.  The fixed variant forces string dtype for the key
  columns, so text cells are the faithful reading there; for the original
  variant the claims under study only concern text-valued cells.
* `pd.to_numeric` with coerce-errors is modelled per cell by
  `parseNumStr` (sign, digits,
  optional single decimal point, surrounding whitespace stripped;
  scientific notation and other exotic float spellings are not modelled),
  and per column by `coerceColumn`, which mirrors the dtype rule: the
  resulting column is integer-typed iff every cell parses as an integer,
  otherwise every parsed value becomes a float (so `str()` prints a
  trailing `.0` on integral floats, exactly as pandas/Python do).
* Python `str()` of an int/float is modelled by `renderNum`; floats are
  modelled as exact decimals, which agrees with `repr` on the short
  decimal literals this data contains.
* Python dicts of column types are modelled as insertion-ordered
  association lists (`assocSet` updates in place or appends, exactly as
  dict assignment does); `KeyError` on `df[col]` for a column absent from
  the frame is modelled by `missingNumericCols`/`RunResult.keyError`.
-/

/-- Characters treated as whitespace by Python `str.strip()` (the subset
relevant to this data: space, tab, newline, carriage return). -/
def isSpaceChar (c : Char) : Bool :=
  c = ' ' || c = '\t' || c = '\n' || c = '\r'

/-- Strip leading and trailing whitespace from a character list. -/
def stripChars (l : List Char) : List Char :=
  ((l.dropWhile isSpaceChar).reverse.dropWhile isSpaceChar).reverse

/-- Python `str.strip()`. -/
def pyStrip (s : String) : String :=
  String.mk (stripChars s.data)

/-- Remove every semicolon, modelling the regex replace of semicolons by
the empty string on a text cell (and the same column-name cleanup). -/
def removeSemis (s : String) : String :=
  String.mk (s.data.filter (fun c => c ≠ ';'))

/-- Column-name cleanup of the fixed variant: semicolons removed, then
stripped (line 36 of the fixed variant). -/
def cleanColName (s : String) : String :=
  pyStrip (removeSemis s)

/-- Cell cleanup shared by both variants: semicolons are removed and then
any cell equal to the empty string, the text NULL or the text 0 becomes
NaN (np.nan).  `none` is the NaN marker. -/
def cleanCell (s : String) : Option String :=
  let t := removeSemis s
  if t = "" || t = "NULL" || t = "0" then none else some t

/-- The single-quote character, written via its code point. -/
def squote : Char := Char.ofNat 39

/-- The backslash character, written via its code point. -/
def bslash : Char := Char.ofNat 92

/-- Decimal digit character for a digit value. -/
def digitChar (d : Nat) : Char := Char.ofNat (48 + d)

/-- Fuel-driven decimal rendering of a natural number (most significant
digit first); the fuel `n + 1` always suffices. -/
def natToDigitsCore : Nat → Nat → List Char → List Char
  | 0, _, acc => acc
  | fuel + 1, n, acc =>
    if n < 10 then digitChar n :: acc
    else natToDigitsCore fuel (n / 10) (digitChar (n % 10) :: acc)

/-- Decimal digit string of a natural number. -/
def natToDigits (n : Nat) : List Char :=
  natToDigitsCore (n + 1) n []

/-- Python `str()` of an integer. -/
def intToStr (n : Int) : String :=
  if n < 0 then String.mk ('-' :: natToDigits n.natAbs)
  else String.mk (natToDigits n.natAbs)

/-- A numeric value as produced by `pd.to_numeric`: either an integer
(int64) or a float, modelled as the exact decimal `sig / 10 ^ exp`. -/
inductive PyNum where
  | i : Int → PyNum
  | f : Int → Nat → PyNum
  deriving DecidableEq, Repr

/-- Normalise a decimal float by dropping trailing zero fraction digits,
mirroring the shortest-representation printing of Python floats. -/
def canonF (sig : Int) : Nat → PyNum
  | 0 => PyNum.f sig 0
  | e + 1 => if sig % 10 = 0 then canonF (sig / 10) e else PyNum.f sig (e + 1)

/-- View an int64 value as the float it becomes when its column is
upcast to float64 (printing gains a trailing `.0`). -/
def toFloatNum : PyNum → PyNum
  | PyNum.i n => PyNum.f n 0
  | v => v

/-- Split a character list at the first `'.'`; the second component is
`none` when there is no dot. -/
def breakDot : List Char → List Char × Option (List Char)
  | [] => ([], none)
  | c :: cs =>
    if c = '.' then ([], some cs)
    else
      let p := breakDot cs
      (c :: p.1, p.2)

/-- Numeric value of a digit list (most significant first). -/
def digitsToNat (l : List Char) : Nat :=
  l.foldl (fun a c => a * 10 + (c.toNat - 48)) 0

/-- All characters are decimal digits. -/
def allDigits (l : List Char) : Bool :=
  l.all (fun c => c.isDigit)

/-- Per-cell model of `pd.to_numeric` with coerce-errors on a text
value: optional surrounding whitespace, optional sign, digits with at
most one decimal point.  `none` models coercion failure (NaN). -/
def parseNumStr (s : String) : Option PyNum :=
  let l := stripChars s.data
  let sgn : Int := match l with
    | '-' :: _ => -1
    | _ => 1
  let l2 : List Char := match l with
    | '-' :: r => r
    | '+' :: r => r
    | _ => l
  match breakDot l2 with
  | (d, none) =>
    if !d.isEmpty && allDigits d then some (PyNum.i (sgn * (digitsToNat d : Int)))
    else none
  | (a, some b) =>
    if (!a.isEmpty || !b.isEmpty) && allDigits a && allDigits b && !b.contains '.'
    then some (canonF (sgn * (digitsToNat (a ++ b) : Int)) b.length)
    else none

/-- Python `str()` of a modelled number.  A float prints with a decimal
point and at least one fraction digit. -/
def renderNum : PyNum → String
  | PyNum.i n => intToStr n
  | PyNum.f sig 0 => intToStr sig ++ ".0"
  | PyNum.f sig (e + 1) =>
    let d := natToDigits sig.natAbs
    let ds := List.replicate (e + 2 - d.length) '0' ++ d
    let k := ds.length - (e + 1)
    (if sig < 0 then "-" else "") ++ String.mk (ds.take k) ++ "." ++ String.mk (ds.drop k)

/-- Association-list lookup, modelling Python `dict` indexing (`get`). -/
def assocGet : List (String × String) → String → Option String
  | [], _ => none
  | p :: m, k => if p.1 = k then some p.2 else assocGet m k

/-- Dict assignment `m[k] = v`: update in place when the key is present,
append at the end otherwise (insertion order, as Python dicts keep; dict
keys are unique, so updating the first match is exact). -/
def assocSet : List (String × String) → String → String → List (String × String)
  | [], k, v => [(k, v)]
  | p :: m, k, v => if p.1 = k then (k, v) :: m else p :: assocSet m k v

/-- Numeric-coercion type set of the fixed variant (its loop coerces
columns typed INT or DOUBLE, line 65 of the fixed variant). -/
def numTypesV1 : List String := ["INT", "DOUBLE"]

/-- Numeric-coercion type set of the original variant (its loop coerces
only columns typed DOUBLE, line 89 of the original variant). -/
def numTypesV2 : List String := ["DOUBLE"]

/-- Does an optional dict value belong to the given type set? -/
def numTypeOpt (numSet : List String) : Option String → Bool
  | some t => numSet.contains t
  | none => false

/-- Nutrient-column block of the fixed variant: the slice of the header
from the column named energy up to and including serv_weight_7; `none`
models the ValueError branch (anchor missing) that degrades to all-text
with a warning. -/
def numericColsV1 (cols : List String) : Option (List String) :=
  if "energy" ∈ cols ∧ "serv_weight_7" ∈ cols then
    let s := cols.indexOf "energy"
    let e := cols.indexOf "serv_weight_7" + 1
    some ((cols.drop s).take (e - s))
  else none

/-- Nutrient-column block of the original variant: fixed positional
slices 11:130 and 130:144 of the header. -/
def numericColsV2 (cols : List String) : List String :=
  (cols.drop 11).take (130 - 11) ++ (cols.drop 130).take (144 - 130)

/-- Set every listed column to the given type, in order. -/
def setAll (m : List (String × String)) (ks : List String) (v : String) :
    List (String × String) :=
  ks.foldl (fun m k => assocSet m k v) m

/-- Name-based overrides shared by both variants: food_id becomes the
primary key, ndb_no INT, last_modified DATETIME.  These are plain dict
assignments, so they add entries even for columns absent from the header. -/
def applyOverrides (m : List (String × String)) : List (String × String) :=
  assocSet (assocSet (assocSet m "food_id" "VARCHAR(50) PRIMARY KEY")
    "ndb_no" "INT") "last_modified" "DATETIME"

/-- Pre-override column types of the fixed variant: default VARCHAR, then
the nutrient block set to DOUBLE when its anchors are found (the
ValueError fallback leaves everything VARCHAR). -/
def colTypesV1base (cols : List String) : List (String × String) :=
  match numericColsV1 cols with
  | some ncols => setAll (cols.map (fun c => (c, "VARCHAR(255)"))) ncols "DOUBLE"
  | none => cols.map (fun c => (c, "VARCHAR(255)"))

/-- Column-type dict of the fixed variant: default VARCHAR, the nutrient
block DOUBLE when its anchors are found, then the name overrides. -/
def colTypesV1 (cols : List String) : List (String × String) :=
  applyOverrides (colTypesV1base cols)

/-- Whether the fixed variant printed the anchor-missing warning (the
ValueError fallback). -/
def warnV1 (cols : List String) : Bool :=
  (numericColsV1 cols).isNone

/-- Column-type dict of the original variant (positional slices; the
serving-columns slice in the source is computed but never used). -/
def colTypesV2 (cols : List String) : List (String × String) :=
  applyOverrides (setAll (cols.map (fun c => (c, "VARCHAR(255)"))) (numericColsV2 cols) "DOUBLE")

/-- Columns whose dict type is in the coercion set but which are absent
from the frame: iterating the type dict and indexing the frame raises
KeyError at the first such column. -/
def missingNumericCols (types : List (String × String)) (numSet : List String)
    (cols : List String) : List String :=
  (types.filter (fun p => numTypeOpt numSet (some p.2) && !(cols.contains p.1))).map Prod.fst

/-- A cell value after coercion: NaN, a text value, or a number. -/
inductive Val where
  | na : Val
  | s : String → Val
  | n : PyNum → Val
  deriving DecidableEq, Repr

/-- Python `str()` of a post-coercion cell value (the NaN branch is never
rendered: the emitter tests for None first). -/
def pyStr : Val → String
  | Val.na => "None"
  | Val.s v => v
  | Val.n v => renderNum v

/-- The cells of column `j`, reading a short row as NaN padding. -/
def colCells (rows : List (List (Option String))) (j : Nat) : List (Option String) :=
  rows.map (fun r => (r.get? j).getD none)

/-- Series-level model of `pd.to_numeric` with coerce-errors: each cell is
parsed; the column stays integer-typed iff every cell parses as an
integer, and is upcast to float64 otherwise (so integral values print
with a trailing `.0`). -/
def coerceColumn (cells : List (Option String)) : List Val :=
  let parsed := cells.map (fun c => c.bind parseNumStr)
  let allInt := parsed.all (fun p => match p with
    | some (PyNum.i _) => true
    | _ => false)
  if allInt then
    parsed.map (fun p => match p with
      | some v => Val.n v
      | none => Val.na)
  else
    parsed.map (fun p => match p with
      | some v => Val.n (toFloatNum v)
      | none => Val.na)

/-- Post-coercion values of column `j`: numerically coerced when the
column type is in the coercion set, text otherwise. -/
def colVals (types : List (String × String)) (numSet : List String)
    (cols : List String) (rows : List (List (Option String))) (j : Nat) : List Val :=
  if numTypeOpt numSet (assocGet types (cols.getD j "")) then
    coerceColumn (colCells rows j)
  else
    (colCells rows j).map (fun c => match c with
      | none => Val.na
      | some s => Val.s s)

/-- The whole post-coercion value grid, row-major, one value per header
column per row. -/
def coercedRows (types : List (String × String)) (numSet : List String)
    (cols : List String) (rows : List (List (Option String))) : List (List Val) :=
  (List.range rows.length).map (fun i =>
    (List.range cols.length).map (fun j =>
      ((colVals types numSet cols rows j).get? i).getD Val.na))

/-- Replace each original single quote by two and then each backslash by
two, in that order — exactly the two chained replaces of the source. -/
def replChar (c : Char) (r : List Char) : List Char → List Char
  | [] => []
  | x :: xs => (if x = c then r else [x]) ++ replChar c r xs

/-- SQL escaping of the source: quotes doubled, then backslashes doubled. -/
def sqlEscape (s : String) : String :=
  String.mk (replChar bslash [bslash, bslash] (replChar squote [squote, squote] s.data))

/-- The literal emitted for one cell: None becomes the bare NULL keyword;
a value in an INT or DOUBLE column is written unquoted (the fixed
variant additionally strips it); anything else is quoted and escaped. -/
def renderLit (strip : Bool) (colType : Option String) (v : Val) : String :=
  match v with
  | Val.na => "NULL"
  | v =>
    if colType = some "INT" ∨ colType = some "DOUBLE" then
      if strip then pyStrip (pyStr v) else pyStr v
    else
      String.mk [squote] ++ sqlEscape (pyStr v) ++ String.mk [squote]

/-- The literals of one row, one per header column, in header order. -/
def rowLiterals (strip : Bool) (types : List (String × String))
    (cols : List String) (row : List Val) : List String :=
  (List.range cols.length).map (fun j =>
    renderLit strip (assocGet types (cols.getD j "")) ((row.get? j).getD Val.na))

/-- The literal grid of a run: one list of literals per data row. -/
def litRowsCore (strip : Bool) (types : List (String × String)) (numSet : List String)
    (cols : List String) (rows : List (List (Option String))) : List (List String) :=
  (coercedRows types numSet cols rows).map (rowLiterals strip types cols)

/-- A loaded table: header names and data rows (cells as loaded). -/
structure Table where
  header : List String
  rows : List (List (Option String))
  deriving DecidableEq, Repr

/-- The cleaned header of the fixed variant (the original variant leaves
column names untouched). -/
def headerV1 (t : Table) : List String :=
  t.header.map cleanColName

/-- The cleaned cell grid shared by both variants. -/
def cleanedRows (t : Table) : List (List (Option String)) :=
  t.rows.map (fun r => r.map (fun c => c.bind cleanCell))

/-- Literal grid produced by the fixed variant. -/
def litRowsV1 (t : Table) : List (List String) :=
  litRowsCore true (colTypesV1 (headerV1 t)) numTypesV1 (headerV1 t) (cleanedRows t)

/-- Literal grid produced by the original variant. -/
def litRowsV2 (t : Table) : List (List String) :=
  litRowsCore false (colTypesV2 t.header) numTypesV2 t.header (cleanedRows t)

/-- Join a list of strings with a separator. -/
def joinSep (sep : String) : List String → String
  | [] => ""
  | [x] => x
  | x :: xs => x ++ sep ++ joinSep sep xs

/-- Substring containment over character lists. -/
def isPrefixL : List Char → List Char → Bool
  | [], _ => true
  | _ :: _, [] => false
  | a :: as, b :: bs => a = b && isPrefixL as bs

/-- Substring containment, modelling the Python `in` test on strings. -/
def containsSubL (pat : List Char) : List Char → Bool
  | [] => isPrefixL pat []
  | c :: cs => isPrefixL pat (c :: cs) || containsSubL pat cs

/-- Substring containment on strings. -/
def containsSub (s pat : String) : Bool :=
  containsSubL pat.data s.data

/-- Fuel-driven leftmost substring replacement. -/
def replaceSubCore (pat rep : List Char) : Nat → List Char → List Char
  | _, [] => []
  | 0, l => l
  | fuel + 1, x :: xs =>
    if !pat.isEmpty && isPrefixL pat (x :: xs) then
      rep ++ replaceSubCore pat rep fuel ((x :: xs).drop pat.length)
    else x :: replaceSubCore pat rep fuel xs

/-- Python `str.replace` for the emitted DDL (pattern and replacement are
plain substrings). -/
def replaceSub (s pat rep : String) : String :=
  String.mk (replaceSubCore pat.data rep.data s.data.length s.data)

/-- NOT-NULL marker of a column definition: NOT NULL exactly when the
dict type contains the PRIMARY KEY marker, NULL otherwise. -/
def nullDefOf (types : List (String × String)) (c : String) : String :=
  if containsSub ((assocGet types c).getD "VARCHAR(255)") "PRIMARY KEY" then "NOT NULL"
  else "NULL"

/-- One column definition of the CREATE statement. -/
def colDef (types : List (String × String)) (c : String) : String :=
  let sqlType := (assocGet types c).getD "VARCHAR(255)"
  let typeOnly := replaceSub sqlType " PRIMARY KEY" ""
  "  `" ++ c ++ "` " ++ typeOnly ++ " " ++ nullDefOf types c

/-- All column definitions, in original header order. -/
def colDefsOf (types : List (String × String)) (cols : List String) : List String :=
  cols.map (colDef types)

/-- The DROP statement. -/
def dropStmt (tname : String) : String :=
  "DROP TABLE IF EXISTS `" ++ tname ++ "`;\n\n"

/-- The CREATE statement. -/
def createStmtOf (tname : String) (types : List (String × String))
    (cols : List String) : String :=
  "CREATE TABLE `" ++ tname ++ "` (\n" ++ joinSep ",\n" (colDefsOf types cols) ++
    "\n) ENGINE=InnoDB DEFAULT CHARSET=utf8mb4;\n\n"

/-- The shared INSERT prefix naming every column. -/
def insertTemplate (tname : String) (cols : List String) : String :=
  "INSERT INTO `" ++ tname ++ "` (`" ++ joinSep "`, `" cols ++ "`) VALUES ("

/-- One full INSERT line from a list of rendered literals. -/
def insertLineOf (tname : String) (cols : List String) (lits : List String) : String :=
  insertTemplate tname cols ++ joinSep ", " lits ++ ");\n"

/-- The SQL output of a successful run. -/
structure SqlScript where
  dropSql : String
  createSql : String
  inserts : List String
  deriving DecidableEq, Repr

/-- Full output text: DROP, CREATE, transaction, INSERTs, COMMIT. -/
def SqlScript.text (s : SqlScript) : String :=
  s.dropSql ++ s.createSql ++ "START TRANSACTION;\n" ++ joinSep "" s.inserts ++ "COMMIT;\n"

/-- Outcome of one run: missing input file (caught, message printed, no
output), an uncaught KeyError during numeric coercion (no output in the
fixed variant, where coercion precedes opening the file), or a completed
run with its script; the Bool records the anchor-missing warning. -/
inductive RunResult where
  | sourceMissing : String → RunResult
  | keyError : String → RunResult
  | ok : Bool → SqlScript → RunResult
  deriving DecidableEq, Repr

/-- The message printed when the input file is absent. -/
def fnfMsg (fname : String) : String :=
  "Error: The file " ++ String.mk [squote] ++ fname ++ String.mk [squote] ++
    " was not found. Please ensure it is in the same directory."

/-- The whole fixed-variant run (`process_data_to_sql` of
`xls_to_sql_v1.py`): read (None when the file is missing), clean column
names and cells, classify types with the anchor heuristic, coerce INT
and DOUBLE columns (KeyError aborts here, before the output file is
opened), then emit DROP, CREATE and one INSERT per row. -/
def runV1 (fname : String) (input : Option Table) (tname : String) : RunResult :=
  match input with
  | none => RunResult.sourceMissing (fnfMsg fname)
  | some t =>
    let cols := headerV1 t
    let types := colTypesV1 cols
    match missingNumericCols types numTypesV1 cols with
    | c :: _ => RunResult.keyError c
    | [] =>
      RunResult.ok (warnV1 cols)
        { dropSql := dropStmt tname
          createSql := createStmtOf tname types cols
          inserts := (litRowsV1 t).map (insertLineOf tname cols) }

/-- The whole original-variant run (`process_data_to_sql` of
`xls_to_sql.py`): no column-name cleanup, positional nutrient slices,
only DOUBLE columns coerced (all of which come from the header, so no
KeyError is possible), no warning path. -/
def runV2 (fname : String) (input : Option Table) (tname : String) : RunResult :=
  match input with
  | none => RunResult.sourceMissing (fnfMsg fname)
  | some t =>
    let cols := t.header
    let types := colTypesV2 cols
    match missingNumericCols types numTypesV2 cols with
    | c :: _ => RunResult.keyError c
    | [] =>
      RunResult.ok false
        { dropSql := dropStmt tname
          createSql := createStmtOf tname types cols
          inserts := (litRowsV2 t).map (insertLineOf tname cols) }

/-- The INSERT statements of a run (empty when no output was produced). -/
def insertsOf : RunResult → List String
  | RunResult.ok _ s => s.inserts
  | _ => []

/-- The script of a run, `none` when the run wrote no output. -/
def outputOf : RunResult → Option SqlScript
  | RunResult.ok _ s => some s
  | _ => none

theorem assocGet_set (m : List (String × String)) (k v c : String) :
    assocGet (assocSet m k v) c = if c = k then some v else assocGet m c := by
  induction m with
  | nil =>
    show (if k = c then some v else none) = if c = k then some v else none
    by_cases h : c = k
    · rw [if_pos h.symm, if_pos h]
    · rw [if_neg (Ne.symm h), if_neg h]
  | cons p m ih =>
    by_cases hpk : p.1 = k
    · simp only [assocSet, if_pos hpk, assocGet]
      by_cases hck : c = k
      · rw [if_pos hck.symm, if_pos hck]
      · rw [if_neg (Ne.symm hck), if_neg hck, if_neg (fun hpc : p.1 = c => hck (hpc ▸ hpk))]
    · simp only [assocSet, if_neg hpk, assocGet, ih]
      by_cases hpc : p.1 = c
      · have hck : c ≠ k := fun h => hpk (hpc.trans h)
        rw [if_pos hpc, if_neg hck, if_pos hpc]
      · rw [if_neg hpc]
        by_cases hck : c = k <;> simp [hck, hpc]

theorem mem_assocSet {m : List (String × String)} {k v : String}
    {q : String × String} : q ∈ assocSet m k v → q = (k, v) ∨ q ∈ m := by
  induction m with
  | nil =>
    intro h
    simp only [assocSet, List.mem_singleton] at h
    exact Or.inl h
  | cons p m ih =>
    intro h
    by_cases hpk : p.1 = k
    · simp only [assocSet, if_pos hpk] at h
      rcases List.mem_cons.mp h with h1 | h1
      · exact Or.inl h1
      · exact Or.inr (List.mem_cons_of_mem _ h1)
    · simp only [assocSet, if_neg hpk] at h
      rcases List.mem_cons.mp h with h1 | h1
      · exact Or.inr (h1 ▸ List.mem_cons_self p m)
      · rcases ih h1 with h2 | h2
        · exact Or.inl h2
        · exact Or.inr (List.mem_cons_of_mem _ h2)

theorem assocGet_eq_none {m : List (String × String)} {k : String}
    (h : ∀ q ∈ m, q.1 ≠ k) : assocGet m k = none := by
  induction m with
  | nil => rfl
  | cons p m ih =>
    simp only [assocGet, if_neg (h p (List.mem_cons_self p m))]
    exact ih (fun q hq => h q (List.mem_cons_of_mem _ hq))

theorem assocSet_append {m : List (String × String)} {k : String} (v : String)
    (h : ∀ q ∈ m, q.1 ≠ k) : assocSet m k v = m ++ [(k, v)] := by
  induction m with
  | nil => rfl
  | cons p m ih =>
    simp only [assocSet, if_neg (h p (List.mem_cons_self p m)), List.cons_append]
    exact congrArg _ (ih (fun q hq => h q (List.mem_cons_of_mem _ hq)))

theorem filter_assocSet (pred : String × String → Bool)
    {m : List (String × String)} {k : String} {v : String}
    (h1 : pred (k, v) = false) (h2 : ∀ q ∈ m, q.1 = k → pred q = false) :
    (assocSet m k v).filter pred = m.filter pred := by
  induction m with
  | nil => simp [assocSet, List.filter, h1]
  | cons p m ih =>
    by_cases hpk : p.1 = k
    · have hp : pred p = false := h2 p (List.mem_cons_self p m) hpk
      simp [assocSet, hpk, List.filter, h1, hp]
    · simp only [assocSet, if_neg hpk, List.filter_cons]
      rw [ih (fun q hq => h2 q (List.mem_cons_of_mem _ hq))]

theorem assocGet_setAll (ks : List String) (m : List (String × String)) (v c : String) :
    assocGet (setAll m ks v) c = if c ∈ ks then some v else assocGet m c := by
  induction ks generalizing m with
  | nil => simp [setAll]
  | cons k ks ih =>
    show assocGet (setAll (assocSet m k v) ks v) c = _
    rw [ih, assocGet_set]
    by_cases hc : c ∈ ks <;> by_cases hck : c = k <;> simp [hc, hck]

theorem mem_setAll {ks : List String} {m : List (String × String)} {v : String}
    {q : String × String} (h : q ∈ setAll m ks v) :
    (q.1 ∈ ks ∧ q.2 = v) ∨ q ∈ m := by
  induction ks generalizing m with
  | nil => exact Or.inr h
  | cons k ks ih =>
    rcases ih h with h1 | h1
    · exact Or.inl ⟨List.mem_cons_of_mem _ h1.1, h1.2⟩
    · rcases mem_assocSet h1 with h2 | h2
      · exact Or.inl (by simp [h2])
      · exact Or.inr h2

theorem assocGet_baseMap {cols : List String} {c : String} (h : c ∈ cols) :
    assocGet (cols.map (fun c => (c, "VARCHAR(255)"))) c = some "VARCHAR(255)" := by
  induction cols with
  | nil => cases h
  | cons d cols ih =>
    by_cases hdc : d = c
    · simp [assocGet, hdc]
    · rcases List.mem_cons.mp h with h1 | h1
      · exact absurd h1.symm hdc
      · simp [assocGet, hdc, ih h1]

theorem mem_baseMap {cols : List String} {q : String × String}
    (h : q ∈ cols.map (fun c => (c, "VARCHAR(255)"))) :
    q.1 ∈ cols ∧ q.2 = "VARCHAR(255)" := by
  rcases List.mem_map.mp h with ⟨c, hc, rfl⟩
  exact ⟨hc, rfl⟩

theorem assocGet_applyOverrides_food (m : List (String × String)) :
    assocGet (applyOverrides m) "food_id" = some "VARCHAR(50) PRIMARY KEY" := by
  unfold applyOverrides
  rw [assocGet_set, if_neg (by decide), assocGet_set, if_neg (by decide),
    assocGet_set, if_pos rfl]

theorem assocGet_applyOverrides_ndb (m : List (String × String)) :
    assocGet (applyOverrides m) "ndb_no" = some "INT" := by
  unfold applyOverrides
  rw [assocGet_set, if_neg (by decide), assocGet_set, if_pos rfl]

theorem assocGet_applyOverrides_last (m : List (String × String)) :
    assocGet (applyOverrides m) "last_modified" = some "DATETIME" := by
  unfold applyOverrides
  rw [assocGet_set, if_pos rfl]

theorem assocGet_applyOverrides_other (m : List (String × String)) {c : String}
    (h1 : c ≠ "food_id") (h2 : c ≠ "ndb_no") (h3 : c ≠ "last_modified") :
    assocGet (applyOverrides m) c = assocGet m c := by
  unfold applyOverrides
  rw [assocGet_set, if_neg h3, assocGet_set, if_neg h2, assocGet_set, if_neg h1]

theorem mem_applyOverrides {m : List (String × String)} {q : String × String}
    (h : q ∈ applyOverrides m) :
    q = ("food_id", "VARCHAR(50) PRIMARY KEY") ∨ q = ("ndb_no", "INT") ∨
      q = ("last_modified", "DATETIME") ∨ q ∈ m := by
  unfold applyOverrides at h
  rcases mem_assocSet h with h1 | h1
  · exact Or.inr (Or.inr (Or.inl h1))
  rcases mem_assocSet h1 with h2 | h2
  · exact Or.inr (Or.inl h2)
  rcases mem_assocSet h2 with h3 | h3
  · exact Or.inl h3
  · exact Or.inr (Or.inr (Or.inr h3))

theorem numericColsV1_subset {cols ncols : List String}
    (h : numericColsV1 cols = some ncols) : ncols ⊆ cols := by
  unfold numericColsV1 at h
  by_cases hc : "energy" ∈ cols ∧ "serv_weight_7" ∈ cols
  · rw [if_pos hc] at h
    cases h
    exact fun x hx => List.drop_subset _ _ (List.take_subset _ _ hx)
  · rw [if_neg hc] at h
    cases h

theorem numericColsV2_subset (cols : List String) : numericColsV2 cols ⊆ cols := by
  intro x hx
  rcases List.mem_append.mp hx with h | h
  · exact List.drop_subset _ _ (List.take_subset _ _ h)
  · exact List.drop_subset _ _ (List.take_subset _ _ h)

theorem mem_colTypesV1base {cols : List String} {q : String × String}
    (h : q ∈ colTypesV1base cols) :
    q.1 ∈ cols ∧ (q.2 = "VARCHAR(255)" ∨ q.2 = "DOUBLE") := by
  unfold colTypesV1base at h
  cases hn : numericColsV1 cols with
  | some ncols =>
    rw [hn] at h
    rcases mem_setAll h with ⟨hk, hv⟩ | h2
    · exact ⟨numericColsV1_subset hn hk, Or.inr hv⟩
    · exact ⟨(mem_baseMap h2).1, Or.inl (mem_baseMap h2).2⟩
  | none =>
    rw [hn] at h
    exact ⟨(mem_baseMap h).1, Or.inl (mem_baseMap h).2⟩

theorem predNum_false_left (numSet cols : List String) (q : String × String)
    (h : numSet.contains q.2 = false) :
    (numTypeOpt numSet (some q.2) && !(cols.contains q.1)) = false := by
  simp only [numTypeOpt, h, Bool.false_and]

theorem predNum_false_right (numSet cols : List String) (q : String × String)
    (h : q.1 ∈ cols) :
    (numTypeOpt numSet (some q.2) && !(cols.contains q.1)) = false := by
  have h2 : cols.contains q.1 = true := List.elem_iff.mpr h
  simp only [h2, Bool.not_true, Bool.and_false]

theorem missingV1_nil {cols : List String} (h : "ndb_no" ∈ cols) :
    missingNumericCols (colTypesV1 cols) numTypesV1 cols = [] := by
  have hf : ∀ q : String × String, q ∈ colTypesV1 cols →
      (numTypeOpt numTypesV1 (some q.2) && !(cols.contains q.1)) = false := by
    intro q hq
    rcases mem_applyOverrides hq with h1 | h1 | h1 | h1
    · rw [h1]; exact predNum_false_left _ _ _ (by decide)
    · rw [h1]; exact predNum_false_right _ _ _ h
    · rw [h1]; exact predNum_false_left _ _ _ (by decide)
    · exact predNum_false_right _ _ _ (mem_colTypesV1base h1).1
  unfold missingNumericCols
  rw [List.filter_eq_nil.mpr (fun q hq => by
    intro hx
    have hb : (numTypeOpt numTypesV1 (some q.2) && !(cols.contains q.1)) = true := hx
    rw [hf q hq] at hb
    exact Bool.false_ne_true hb), List.map_nil]

theorem missingV2_nil (cols : List String) :
    missingNumericCols (colTypesV2 cols) numTypesV2 cols = [] := by
  have hf : ∀ q : String × String, q ∈ colTypesV2 cols →
      (numTypeOpt numTypesV2 (some q.2) && !(cols.contains q.1)) = false := by
    intro q hq
    unfold colTypesV2 at hq
    rcases mem_applyOverrides hq with h1 | h1 | h1 | h1
    · rw [h1]; exact predNum_false_left _ _ _ (by decide)
    · rw [h1]; exact predNum_false_left _ _ _ (by decide)
    · rw [h1]; exact predNum_false_left _ _ _ (by decide)
    · rcases mem_setAll h1 with ⟨hk, _⟩ | h2
      · exact predNum_false_right _ _ _ (numericColsV2_subset cols hk)
      · exact predNum_false_right _ _ _ (mem_baseMap h2).1
  unfold missingNumericCols
  rw [List.filter_eq_nil.mpr (fun q hq => by
    intro hx
    have hb : (numTypeOpt numTypesV2 (some q.2) && !(cols.contains q.1)) = true := hx
    rw [hf q hq] at hb
    exact Bool.false_ne_true hb), List.map_nil]

theorem missingV1_ndb {cols : List String} (h : "ndb_no" ∉ cols) :
    missingNumericCols (colTypesV1 cols) numTypesV1 cols = ["ndb_no"] := by
  have hkeys : ∀ q : String × String, q ∈ colTypesV1base cols → q.1 ∈ cols :=
    fun q hq => (mem_colTypesV1base hq).1
  have hm1 : ∀ q ∈ assocSet (colTypesV1base cols) "food_id" "VARCHAR(50) PRIMARY KEY",
      (numTypeOpt numTypesV1 (some q.2) && !(cols.contains q.1)) = false := by
    intro q hq
    rcases mem_assocSet hq with h1 | h1
    · rw [h1]; exact predNum_false_left _ _ _ (by decide)
    · exact predNum_false_right _ _ _ (hkeys q h1)
  have hndb : assocSet (assocSet (colTypesV1base cols) "food_id" "VARCHAR(50) PRIMARY KEY")
        "ndb_no" "INT" =
      assocSet (colTypesV1base cols) "food_id" "VARCHAR(50) PRIMARY KEY" ++ [("ndb_no", "INT")] := by
    apply assocSet_append
    intro q hq
    rcases mem_assocSet hq with h1 | h1
    · rw [h1]; decide
    · exact fun he => h (he ▸ hkeys q h1)
  have hconts : cols.contains "ndb_no" = false :=
    Bool.eq_false_iff.mpr (fun hx => h (List.elem_iff.mp hx))
  have hfin : (numTypeOpt numTypesV1 (some "INT") && !(cols.contains "ndb_no")) = true := by
    rw [hconts]; decide
  have hlast2 : ∀ q ∈ assocSet (assocSet (colTypesV1base cols) "food_id"
        "VARCHAR(50) PRIMARY KEY") "ndb_no" "INT", q.1 = "last_modified" →
      (fun p : String × String =>
        numTypeOpt numTypesV1 (some p.2) && !(cols.contains p.1)) q = false := by
    intro q hq hql
    rw [hndb] at hq
    rcases List.mem_append.mp hq with h1 | h1
    · exact hm1 q h1
    · rw [List.mem_singleton.mp h1] at hql
      exact absurd hql (by decide)
  unfold missingNumericCols colTypesV1 applyOverrides
  rw [filter_assocSet _ (by exact predNum_false_left _ cols _ (by decide)) hlast2, hndb,
    List.filter_append, List.filter_eq_nil.mpr (fun q hq => by
      intro hx
      have hb : (numTypeOpt numTypesV1 (some q.2) && !(cols.contains q.1)) = true := hx
      rw [hm1 q hq] at hb
      exact Bool.false_ne_true hb)]
  rw [List.nil_append, List.filter_cons,
    if_pos (show (fun p : String × String =>
      numTypeOpt numTypesV1 (some p.2) && !(cols.contains p.1)) ("ndb_no", "INT") = true from hfin),
    List.filter_nil]
  rfl

/-- The cell of a grid at row `i`, column `j` (NaN when out of range). -/
def cellAt (rows : List (List (Option String))) (i j : Nat) : Option String :=
  (((rows.get? i).getD []).get? j).getD none

/-- The post-cleaning cell of a table at row `i`, column `j`. -/
def cleanedCellAt (t : Table) (i j : Nat) : Option String :=
  cellAt (cleanedRows t) i j

theorem cellAt_cleanedRows (t : Table) {i : Nat} (j : Nat) (hi : i < t.rows.length) :
    cleanedCellAt t i j = (cellAt t.rows i j).bind cleanCell := by
  unfold cleanedCellAt cellAt cleanedRows
  rw [List.get?_map, List.get?_eq_get hi]
  simp only [Option.map_some', Option.getD_some, List.get?_map]
  cases hr : (t.rows.get ⟨i, hi⟩).get? j <;> simp [hr]

theorem colCells_length (rows : List (List (Option String))) (j : Nat) :
    (colCells rows j).length = rows.length := by
  unfold colCells
  exact List.length_map rows _

theorem colCells_get? {rows : List (List (Option String))} {i : Nat} (j : Nat)
    (hi : i < rows.length) : (colCells rows j).get? i = some (cellAt rows i j) := by
  unfold colCells cellAt
  rw [List.get?_map, List.get?_eq_get hi]
  rfl

theorem coerceColumn_length (cells : List (Option String)) :
    (coerceColumn cells).length = cells.length := by
  simp only [coerceColumn]
  split <;> simp

theorem coerceColumn_get?_none {cells : List (Option String)} {i : Nat}
    (hi : i < cells.length)
    (h : ((cells.get? i).getD none).bind parseNumStr = none) :
    (coerceColumn cells).get? i = some Val.na := by
  rw [List.get?_eq_get hi] at h
  simp only [Option.getD_some, List.get_eq_getElem] at h
  simp only [coerceColumn]
  split <;>
  · rw [List.get?_map, List.get?_map, List.get?_eq_get hi]
    simp [h]

theorem coerceColumn_get?_some {cells : List (Option String)} {i : Nat} {n : PyNum}
    (hi : i < cells.length)
    (h : ((cells.get? i).getD none).bind parseNumStr = some n) :
    (coerceColumn cells).get? i = some (Val.n n) ∨
      (coerceColumn cells).get? i = some (Val.n (toFloatNum n)) := by
  rw [List.get?_eq_get hi] at h
  simp only [Option.getD_some, List.get_eq_getElem] at h
  simp only [coerceColumn]
  split
  · left
    rw [List.get?_map, List.get?_map, List.get?_eq_get hi]
    simp [h]
  · right
    rw [List.get?_map, List.get?_map, List.get?_eq_get hi]
    simp [h]

theorem colVals_length (types : List (String × String)) (numSet : List String)
    (cols : List String) (rows : List (List (Option String))) (j : Nat) :
    (colVals types numSet cols rows j).length = rows.length := by
  unfold colVals
  split
  · rw [coerceColumn_length, colCells_length]
  · rw [List.length_map, colCells_length]

theorem colVals_text_get? {types : List (String × String)} {numSet : List String}
    {cols : List String} {rows : List (List (Option String))} {i j : Nat}
    (h : numTypeOpt numSet (assocGet types (cols.getD j "")) = false)
    (hi : i < rows.length) :
    (colVals types numSet cols rows j).get? i =
      some (match cellAt rows i j with
        | none => Val.na
        | some s => Val.s s) := by
  unfold colVals
  rw [if_neg (by simpa using h), List.get?_map, colCells_get? j hi]
  rfl

theorem colVals_num_none {types : List (String × String)} {numSet : List String}
    {cols : List String} {rows : List (List (Option String))} {i j : Nat}
    (h : numTypeOpt numSet (assocGet types (cols.getD j "")) = true)
    (hi : i < rows.length)
    (hp : (cellAt rows i j).bind parseNumStr = none) :
    (colVals types numSet cols rows j).get? i = some Val.na := by
  unfold colVals
  rw [if_pos (by simpa using h)]
  apply coerceColumn_get?_none
  · rw [colCells_length]; exact hi
  · rw [colCells_get? j hi]
    simpa using hp

theorem colVals_num_some {types : List (String × String)} {numSet : List String}
    {cols : List String} {rows : List (List (Option String))} {i j : Nat} {n : PyNum}
    (h : numTypeOpt numSet (assocGet types (cols.getD j "")) = true)
    (hi : i < rows.length)
    (hp : (cellAt rows i j).bind parseNumStr = some n) :
    (colVals types numSet cols rows j).get? i = some (Val.n n) ∨
      (colVals types numSet cols rows j).get? i = some (Val.n (toFloatNum n)) := by
  unfold colVals
  rw [if_pos (by simpa using h)]
  apply coerceColumn_get?_some
  · rw [colCells_length]; exact hi
  · rw [colCells_get? j hi]
    simpa using hp

theorem coercedRows_length (types : List (String × String)) (numSet : List String)
    (cols : List String) (rows : List (List (Option String))) :
    (coercedRows types numSet cols rows).length = rows.length := by
  unfold coercedRows
  rw [List.length_map, List.length_range]

theorem litRowsCore_length (strip : Bool) (types : List (String × String))
    (numSet : List String) (cols : List String) (rows : List (List (Option String))) :
    (litRowsCore strip types numSet cols rows).length = rows.length := by
  unfold litRowsCore
  rw [List.length_map, coercedRows_length]

theorem litRowsCore_row_length (strip : Bool) (types : List (String × String))
    (numSet : List String) (cols : List String) (rows : List (List (Option String)))
    {i : Nat} (hi : i < rows.length) :
    ((litRowsCore strip types numSet cols rows).getD i []).length = cols.length := by
  unfold litRowsCore coercedRows rowLiterals
  rw [List.getD_eq_get?, List.get?_map, List.get?_map, List.get?_range hi]
  simp

theorem getD_map_range {α : Type} (f : Nat → α) {n i : Nat} (hi : i < n) (d : α) :
    ((List.range n).map f).getD i d = f i := by
  rw [List.getD_eq_get?, List.get?_map, List.get?_range hi]
  rfl

theorem litRowsCore_elem (strip : Bool) (types : List (String × String))
    (numSet : List String) (cols : List String) (rows : List (List (Option String)))
    {i j : Nat} (hi : i < rows.length) (hj : j < cols.length) :
    ((litRowsCore strip types numSet cols rows).getD i []).getD j "" =
      renderLit strip (assocGet types (cols.getD j ""))
        (((colVals types numSet cols rows j).get? i).getD Val.na) := by
  unfold litRowsCore coercedRows rowLiterals
  rw [List.map_map, getD_map_range _ hi]
  simp only [Function.comp_apply]
  rw [List.getD_eq_get?, List.get?_map, List.get?_range hj]
  simp only [Option.map_some', Option.getD_some]
  rw [List.get?_map, List.get?_range hj]
  simp only [Option.map_some', Option.getD_some]

theorem renderLit_na (strip : Bool) (ct : Option String) :
    renderLit strip ct Val.na = "NULL" := rfl

theorem renderLit_num (strip : Bool) {ct : Option String}
    (h : ct = some "INT" ∨ ct = some "DOUBLE") (n : PyNum) :
    renderLit strip ct (Val.n n) =
      if strip then pyStrip (renderNum n) else renderNum n := by
  simp only [renderLit, pyStr]
  rw [if_pos h]

theorem renderLit_text (strip : Bool) {ct : Option String}
    (h : ¬(ct = some "INT" ∨ ct = some "DOUBLE")) (s : String) :
    renderLit strip ct (Val.s s) =
      String.mk [squote] ++ sqlEscape s ++ String.mk [squote] := by
  simp only [renderLit, pyStr]
  rw [if_neg h]

/-- Single-pass escaping as the spec describes it: every single quote and
every backslash is doubled, all other characters kept. -/
def doubleEsc : List Char → List Char
  | [] => []
  | c :: cs =>
    (if c = squote then [squote, squote]
     else if c = bslash then [bslash, bslash] else [c]) ++ doubleEsc cs

theorem replChar_append (c : Char) (r l1 l2 : List Char) :
    replChar c r (l1 ++ l2) = replChar c r l1 ++ replChar c r l2 := by
  induction l1 with
  | nil => rfl
  | cons x xs ih => simp [replChar, ih]

theorem replChar_esc (l : List Char) :
    replChar bslash [bslash, bslash] (replChar squote [squote, squote] l) = doubleEsc l := by
  induction l with
  | nil => rfl
  | cons c cs ih =>
    simp only [replChar]
    by_cases h1 : c = squote
    · rw [if_pos h1, replChar_append]
      have h2 : replChar bslash [bslash, bslash] [squote, squote] = [squote, squote] := by decide
      rw [h2, ih]
      simp [doubleEsc, h1]
    · rw [if_neg h1]
      by_cases h2 : c = bslash
      · simp only [replChar, doubleEsc, h1, h2, ih, if_neg (by decide : ¬bslash = squote),
          if_pos rfl, if_false, if_neg h1]
        simp [ih]
      · simp [replChar, doubleEsc, h1, h2, ih]

/-- The two chained replaces of the source (quotes doubled, then
backslashes doubled) coincide with the one-pass doubling. -/
theorem sqlEscape_data (s : String) : (sqlEscape s).data = doubleEsc s.data :=
  replChar_esc s.data

theorem mem_natToDigitsCore {c : Char} :
    ∀ (fuel n : Nat) (acc : List Char), c ∈ natToDigitsCore fuel n acc →
      (∃ d, d < 10 ∧ c = digitChar d) ∨ c ∈ acc := by
  intro fuel
  induction fuel with
  | zero => exact fun n acc h => Or.inr h
  | succ fuel ih =>
    intro n acc h
    by_cases hn : n < 10
    · rw [natToDigitsCore, if_pos hn] at h
      rcases List.mem_cons.mp h with h1 | h1
      · exact Or.inl ⟨n, hn, h1⟩
      · exact Or.inr h1
    · rw [natToDigitsCore, if_neg hn] at h
      rcases ih (n / 10) (digitChar (n % 10) :: acc) h with h1 | h1
      · exact Or.inl h1
      · rcases List.mem_cons.mp h1 with h2 | h2
        · exact Or.inl ⟨n % 10, Nat.mod_lt _ (by norm_num), h2⟩
        · exact Or.inr h2

theorem squote_not_mem_natToDigits (n : Nat) : squote ∉ natToDigits n := by
  intro h
  rcases mem_natToDigitsCore _ _ _ h with ⟨d, hd, he⟩ | h1
  · exact (by decide : ∀ d : Nat, d < 10 → ¬digitChar d = squote) d hd he.symm
  · cases h1

theorem squote_not_mem_intToStr (n : Int) : squote ∉ (intToStr n).data := by
  unfold intToStr
  split <;> intro h
  · rcases List.mem_cons.mp h with h1 | h1
    · exact absurd h1 (by decide)
    · exact squote_not_mem_natToDigits _ h1
  · exact squote_not_mem_natToDigits _ h

theorem squote_not_mem_renderNum (n : PyNum) : squote ∉ (renderNum n).data := by
  match n with
  | PyNum.i m => exact squote_not_mem_intToStr m
  | PyNum.f sig 0 =>
    intro h
    rw [renderNum, String.data_append] at h
    rcases List.mem_append.mp h with h1 | h1
    · exact squote_not_mem_intToStr sig h1
    · exact absurd h1 (by decide)
  | PyNum.f sig (e + 1) =>
    intro h
    rw [renderNum] at h
    simp only [String.data_append] at h
    have hds : squote ∉ List.replicate (e + 2 - (natToDigits sig.natAbs).length) '0' ++
        natToDigits sig.natAbs := by
      intro hx
      rcases List.mem_append.mp hx with h2 | h2
      · exact absurd (List.eq_of_mem_replicate h2) (by decide)
      · exact squote_not_mem_natToDigits _ h2
    rcases List.mem_append.mp h with h1 | h1
    · rcases List.mem_append.mp h1 with h2 | h2
      · rcases List.mem_append.mp h2 with h3 | h3
        · by_cases hs : sig < 0
          · rw [if_pos hs] at h3
            exact absurd h3 (by decide)
          · rw [if_neg hs] at h3
            cases h3
        · exact hds (List.take_subset _ _ h3)
      · exact absurd h2 (by decide)
    · exact hds (List.drop_subset _ _ h1)

theorem mem_stripChars {c : Char} {l : List Char} (h : c ∈ stripChars l) : c ∈ l := by
  unfold stripChars at h
  have h1 := List.mem_reverse.mp h
  have h2 := List.mem_reverse.mp ((List.dropWhile_sublist _).subset h1)
  exact (List.dropWhile_sublist _).subset h2

theorem squote_not_mem_pyStrip {s : String} (h : squote ∉ s.data) :
    squote ∉ (pyStrip s).data :=
  fun hx => h (mem_stripChars hx)

theorem colTypesV1base_eq_some {cols ncols : List String}
    (hn : numericColsV1 cols = some ncols) :
    colTypesV1base cols = setAll (cols.map (fun c => (c, "VARCHAR(255)"))) ncols "DOUBLE" := by
  unfold colTypesV1base
  rw [hn]

theorem colTypesV1base_eq_none {cols : List String} (hn : numericColsV1 cols = none) :
    colTypesV1base cols = cols.map (fun c => (c, "VARCHAR(255)")) := by
  unfold colTypesV1base
  rw [hn]

theorem assocGet_colTypesV1base {cols : List String} {c : String} (h : c ∈ cols) :
    assocGet (colTypesV1base cols) c = some "VARCHAR(255)" ∨
      assocGet (colTypesV1base cols) c = some "DOUBLE" := by
  cases hn : numericColsV1 cols with
  | some ncols =>
    rw [colTypesV1base_eq_some hn, assocGet_setAll]
    by_cases hc : c ∈ ncols
    · right
      rw [if_pos hc]
    · left
      rw [if_neg hc]
      exact assocGet_baseMap h
  | none =>
    left
    rw [colTypesV1base_eq_none hn]
    exact assocGet_baseMap h

theorem assocGet_colTypesV1_food (cols : List String) :
    assocGet (colTypesV1 cols) "food_id" = some "VARCHAR(50) PRIMARY KEY" := by
  unfold colTypesV1
  exact assocGet_applyOverrides_food _

theorem assocGet_colTypesV1_ndb (cols : List String) :
    assocGet (colTypesV1 cols) "ndb_no" = some "INT" := by
  unfold colTypesV1
  exact assocGet_applyOverrides_ndb _

theorem assocGet_colTypesV1_last (cols : List String) :
    assocGet (colTypesV1 cols) "last_modified" = some "DATETIME" := by
  unfold colTypesV1
  exact assocGet_applyOverrides_last _

theorem assocGet_colTypesV1_other {cols : List String} {c : String}
    (h1 : c ≠ "food_id") (h2 : c ≠ "ndb_no") (h3 : c ≠ "last_modified") :
    assocGet (colTypesV1 cols) c = assocGet (colTypesV1base cols) c := by
  unfold colTypesV1
  exact assocGet_applyOverrides_other _ h1 h2 h3

theorem assocGet_colTypesV1_fallback {cols : List String} {c : String}
    (hn : numericColsV1 cols = none) (hc : c ∈ cols)
    (h1 : c ≠ "food_id") (h2 : c ≠ "ndb_no") (h3 : c ≠ "last_modified") :
    assocGet (colTypesV1 cols) c = some "VARCHAR(255)" := by
  rw [assocGet_colTypesV1_other h1 h2 h3, colTypesV1base_eq_none hn]
  exact assocGet_baseMap hc

theorem numericColsV1_none {cols : List String}
    (h : ¬("energy" ∈ cols ∧ "serv_weight_7" ∈ cols)) : numericColsV1 cols = none := by
  unfold numericColsV1
  rw [if_neg h]

theorem pk_type_iff {cols : List String} {c : String} (hc : c ∈ cols) :
    containsSub ((assocGet (colTypesV1 cols) c).getD "VARCHAR(255)") "PRIMARY KEY" = true ↔
      c = "food_id" := by
  constructor
  · intro h
    by_contra hne
    by_cases h2 : c = "ndb_no"
    · rw [h2, assocGet_colTypesV1_ndb] at h
      exact absurd h (by decide)
    · by_cases h3 : c = "last_modified"
      · rw [h3, assocGet_colTypesV1_last] at h
        exact absurd h (by decide)
      · rw [assocGet_colTypesV1_other hne h2 h3] at h
        rcases assocGet_colTypesV1base hc with h4 | h4 <;> rw [h4] at h <;>
          exact absurd h (by decide)
  · intro h
    rw [h, assocGet_colTypesV1_food]
    decide

theorem nullDefOf_colTypesV1 {cols : List String} {c : String} (hc : c ∈ cols) :
    nullDefOf (colTypesV1 cols) c = if c = "food_id" then "NOT NULL" else "NULL" := by
  unfold nullDefOf
  by_cases hf : c = "food_id"
  · rw [if_pos ((pk_type_iff hc).mpr hf), if_pos hf]
  · rw [if_neg (fun hx => hf ((pk_type_iff hc).mp hx)), if_neg hf]

theorem countP_pk {cols : List String} (hfood : "food_id" ∈ cols) (hnd : cols.Nodup) :
    cols.countP (fun c =>
      containsSub ((assocGet (colTypesV1 cols) c).getD "VARCHAR(255)") "PRIMARY KEY") = 1 := by
  have h1 : ∀ a ∈ cols,
      (fun c => containsSub ((assocGet (colTypesV1 cols) c).getD "VARCHAR(255)")
        "PRIMARY KEY") a = true ↔ (fun c => c == "food_id") a = true := by
    intro a ha
    constructor
    · intro h
      exact beq_iff_eq.mpr ((pk_type_iff ha).mp h)
    · intro h
      exact (pk_type_iff ha).mpr (beq_iff_eq.mp h)
  rw [List.countP_congr h1]
  exact List.count_eq_one_of_mem hnd hfood

theorem runV1_ok {fname tname : String} {t : Table}
    (h : missingNumericCols (colTypesV1 (headerV1 t)) numTypesV1 (headerV1 t) = []) :
    runV1 fname (some t) tname =
      RunResult.ok (warnV1 (headerV1 t))
        { dropSql := dropStmt tname
          createSql := createStmtOf tname (colTypesV1 (headerV1 t)) (headerV1 t)
          inserts := (litRowsV1 t).map (insertLineOf tname (headerV1 t)) } := by
  simp only [runV1]
  rw [h]

theorem runV1_keyErr {fname tname : String} {t : Table} {c : String} {rest : List String}
    (h : missingNumericCols (colTypesV1 (headerV1 t)) numTypesV1 (headerV1 t) = c :: rest) :
    runV1 fname (some t) tname = RunResult.keyError c := by
  simp only [runV1]
  rw [h]

theorem runV2_ok (fname tname : String) (t : Table) :
    runV2 fname (some t) tname =
      RunResult.ok false
        { dropSql := dropStmt tname
          createSql := createStmtOf tname (colTypesV2 t.header) t.header
          inserts := (litRowsV2 t).map (insertLineOf tname t.header) } := by
  simp only [runV2]
  rw [missingV2_nil]

theorem runV1_ok_inv {fname tname : String} {t : Table} {w : Bool} {s : SqlScript}
    (h : runV1 fname (some t) tname = RunResult.ok w s) :
    w = warnV1 (headerV1 t) ∧
      s.createSql = createStmtOf tname (colTypesV1 (headerV1 t)) (headerV1 t) ∧
      s.inserts = (litRowsV1 t).map (insertLineOf tname (headerV1 t)) := by
  cases hm : missingNumericCols (colTypesV1 (headerV1 t)) numTypesV1 (headerV1 t) with
  | nil =>
    rw [runV1_ok hm] at h
    cases h
    exact ⟨rfl, rfl, rfl⟩
  | cons c rest =>
    rw [runV1_keyErr hm] at h
    cases h

theorem runV2_ok_inv {fname tname : String} {t : Table} {w : Bool} {s : SqlScript}
    (h : runV2 fname (some t) tname = RunResult.ok w s) :
    w = false ∧ s.createSql = createStmtOf tname (colTypesV2 t.header) t.header ∧
      s.inserts = (litRowsV2 t).map (insertLineOf tname t.header) := by
  rw [runV2_ok fname tname t] at h
  cases h
  exact ⟨rfl, rfl, rfl⟩

theorem cleanedRows_length (t : Table) : (cleanedRows t).length = t.rows.length := by
  unfold cleanedRows
  exact List.length_map _ _

theorem litRowsV1_length (t : Table) : (litRowsV1 t).length = t.rows.length := by
  unfold litRowsV1
  rw [litRowsCore_length, cleanedRows_length]

theorem litRowsV2_length (t : Table) : (litRowsV2 t).length = t.rows.length := by
  unfold litRowsV2
  rw [litRowsCore_length, cleanedRows_length]

theorem getD_map_of_lt {α β : Type} (f : α → β) (l : List α) (dA : α) (dB : β) {i : Nat}
    (hi : i < l.length) : (l.map f).getD i dB = f (l.getD i dA) := by
  rw [List.getD_eq_get?, List.get?_map, List.get?_eq_get hi, List.getD_eq_get?,
    List.get?_eq_get hi]
  rfl

theorem numTypeOptV1_iff (o : Option String) :
    numTypeOpt numTypesV1 o = true ↔ (o = some "INT" ∨ o = some "DOUBLE") := by
  cases o with
  | none => simp [numTypeOpt]
  | some t => simp [numTypeOpt, numTypesV1, List.elem_iff]

theorem numTypeOptV2_iff (o : Option String) :
    numTypeOpt numTypesV2 o = true ↔ o = some "DOUBLE" := by
  cases o with
  | none => simp [numTypeOpt]
  | some t => simp [numTypeOpt, numTypesV2, List.elem_iff]

theorem cleanCell_none {v : String}
    (h : removeSemis v = "" ∨ removeSemis v = "NULL" ∨ removeSemis v = "0") :
    cleanCell v = none := by
  unfold cleanCell
  rcases h with h | h | h <;> simp [h]

theorem litAt_null_of_numfail (strip : Bool) (types : List (String × String))
    (numSet cols : List String) (rows : List (List (Option String))) {i j : Nat}
    (hi : i < rows.length) (hj : j < cols.length)
    (ht : numTypeOpt numSet (assocGet types (cols.getD j "")) = true)
    (hp : (cellAt rows i j).bind parseNumStr = none) :
    ((litRowsCore strip types numSet cols rows).getD i []).getD j "" = "NULL" := by
  rw [litRowsCore_elem strip types numSet cols rows hi hj, colVals_num_none ht hi hp]
  rfl

theorem litAt_null_of_na (strip : Bool) (types : List (String × String))
    (numSet cols : List String) (rows : List (List (Option String))) {i j : Nat}
    (hi : i < rows.length) (hj : j < cols.length) (hc : cellAt rows i j = none) :
    ((litRowsCore strip types numSet cols rows).getD i []).getD j "" = "NULL" := by
  by_cases ht : numTypeOpt numSet (assocGet types (cols.getD j "")) = true
  · exact litAt_null_of_numfail strip types numSet cols rows hi hj ht (by rw [hc]; rfl)
  · rw [litRowsCore_elem strip types numSet cols rows hi hj,
      colVals_text_get? (Bool.eq_false_iff.mpr ht) hi]
    rw [hc]
    rfl

theorem litAt_num (strip : Bool) (types : List (String × String)) (numSet cols : List String)
    (rows : List (List (Option String))) {i j : Nat} {n : PyNum}
    (hi : i < rows.length) (hj : j < cols.length)
    (ht : numTypeOpt numSet (assocGet types (cols.getD j "")) = true)
    (hrender : assocGet types (cols.getD j "") = some "INT" ∨
      assocGet types (cols.getD j "") = some "DOUBLE")
    (hp : (cellAt rows i j).bind parseNumStr = some n) :
    ∃ m : PyNum, (m = n ∨ m = toFloatNum n) ∧
      ((litRowsCore strip types numSet cols rows).getD i []).getD j "" =
        (if strip then pyStrip (renderNum m) else renderNum m) := by
  rcases colVals_num_some ht hi hp with hv | hv
  · refine ⟨n, Or.inl rfl, ?_⟩
    rw [litRowsCore_elem strip types numSet cols rows hi hj, hv]
    exact renderLit_num strip hrender n
  · refine ⟨toFloatNum n, Or.inr rfl, ?_⟩
    rw [litRowsCore_elem strip types numSet cols rows hi hj, hv]
    exact renderLit_num strip hrender (toFloatNum n)

theorem litAt_text (strip : Bool) (types : List (String × String)) (numSet cols : List String)
    (rows : List (List (Option String))) {i j : Nat} {s : String}
    (hi : i < rows.length) (hj : j < cols.length)
    (hrender : ¬(assocGet types (cols.getD j "") = some "INT" ∨
      assocGet types (cols.getD j "") = some "DOUBLE"))
    (hnum : numTypeOpt numSet (assocGet types (cols.getD j "")) = false)
    (hc : cellAt rows i j = some s) :
    ((litRowsCore strip types numSet cols rows).getD i []).getD j "" =
      String.mk [squote] ++ sqlEscape s ++ String.mk [squote] := by
  rw [litRowsCore_elem strip types numSet cols rows hi hj, colVals_text_get? hnum hi, hc]
  exact renderLit_text strip hrender s

theorem litAt_rawnum (strip : Bool) (types : List (String × String)) (numSet cols : List String)
    (rows : List (List (Option String))) {i j : Nat} {s : String}
    (hi : i < rows.length) (hj : j < cols.length)
    (hnum : numTypeOpt numSet (assocGet types (cols.getD j "")) = false)
    (hrender : assocGet types (cols.getD j "") = some "INT" ∨
      assocGet types (cols.getD j "") = some "DOUBLE")
    (hc : cellAt rows i j = some s) :
    ((litRowsCore strip types numSet cols rows).getD i []).getD j "" =
      (if strip then pyStrip s else s) := by
  rw [litRowsCore_elem strip types numSet cols rows hi hj, colVals_text_get? hnum hi, hc]
  show renderLit strip _ (Val.s s) = _
  simp only [renderLit, pyStr]
  rw [if_pos hrender]

/-- The single-quote character as a one-character string, for writing
expected literals. -/
def quoteS : String := String.mk [squote]

/-- The concrete scenario table of C1: one data row with the four named
columns (plus the ndb_no and serv_weight_7 columns that the fixed
variant requires to reach emission). -/
def c1Table : Table :=
  { header := ["food_id", "ndb_no", "energy", "protein", "serv_weight_7", "last_modified"]
    rows := [[some "09012", some "1", some "150", some "", some "10", some "2024-01-01"]] }

set_option maxRecDepth 100000 in
/-- C1: for the input row with food_id 09012, energy 150, empty protein
and last_modified 2024-01-01, the fixed variant emits exactly the quoted
literal for food_id (leading zero kept), the bare token 150 for energy,
the bare NULL keyword for protein, and the quoted datetime, in that
order inside the single INSERT statement. -/
theorem c1_fixed_scenario_literals :
    ((litRowsV1 c1Table).getD 0 []).getD 0 "" = quoteS ++ "09012" ++ quoteS ∧
    ((litRowsV1 c1Table).getD 0 []).getD 2 "" = "150" ∧
    ((litRowsV1 c1Table).getD 0 []).getD 3 "" = "NULL" ∧
    ((litRowsV1 c1Table).getD 0 []).getD 5 "" = quoteS ++ "2024-01-01" ++ quoteS ∧
    insertsOf (runV1 "latest_food_database_sept_25.xlsx" (some c1Table)
        "tb_food_mst_dosm_origin") =
      ["INSERT INTO `tb_food_mst_dosm_origin` (`food_id`, `ndb_no`, `energy`, `protein`, " ++
        "`serv_weight_7`, `last_modified`) VALUES (" ++ quoteS ++ "09012" ++ quoteS ++
        ", 1, 150, NULL, 10, " ++ quoteS ++ "2024-01-01" ++ quoteS ++ ");\n"] := by
  decide

/-- The concrete table of C9: ndb_no value 007 with a leading zero,
alongside the protected food_id. -/
def c9Table : Table :=
  { header := ["food_id", "ndb_no"]
    rows := [[some "09012", some "007"]] }

set_option maxRecDepth 100000 in
/-- C9: in the fixed variant the ndb_no column is classified INT even
though it was loaded as text, its value 007 is coerced to the number 7,
and the emitted literal is the bare numeral 7 — the leading zeros are
lost at emission while the food_id literal keeps its leading zero. -/
theorem c9_ndb_no_loses_leading_zeros :
    assocGet (colTypesV1 (headerV1 c9Table)) "ndb_no" = some "INT" ∧
    parseNumStr "007" = some (PyNum.i 7) ∧
    insertsOf (runV1 "f.xlsx" (some c9Table) "t") =
      ["INSERT INTO `t` (`food_id`, `ndb_no`) VALUES (" ++ quoteS ++ "09012" ++ quoteS ++
        ", 7);\n"] := by
  decide

/-- C7: when the input file is missing, both variants print the
file-not-found message and return before the output file is opened, so
no script (not even a partial one) is produced. -/
theorem c7_source_missing_aborts (fname tname : String) :
    runV1 fname none tname = RunResult.sourceMissing (fnfMsg fname) ∧
    runV2 fname none tname = RunResult.sourceMissing (fnfMsg fname) ∧
    outputOf (runV1 fname none tname) = none ∧
    outputOf (runV2 fname none tname) = none :=
  ⟨rfl, rfl, rfl, rfl⟩

/-- C7 witness: the configured file and table names instantiate the
statement. -/
theorem c7_source_missing_aborts_witness :
    runV1 "latest_food_database_sept_25.xlsx" none "tb_food_mst_dosm_origin" =
      RunResult.sourceMissing (fnfMsg "latest_food_database_sept_25.xlsx") ∧
    outputOf (runV1 "latest_food_database_sept_25.xlsx" none "tb_food_mst_dosm_origin") =
      none :=
  ⟨(c7_source_missing_aborts "latest_food_database_sept_25.xlsx"
      "tb_food_mst_dosm_origin").1,
    (c7_source_missing_aborts "latest_food_database_sept_25.xlsx"
      "tb_food_mst_dosm_origin").2.2.1⟩

/-- C10: in the fixed variant, a loaded header without an ndb_no column
makes the numeric-coercion loop index the frame at the dict-only key
ndb_no, an uncaught KeyError; the run aborts before the output file is
opened, so no output exists. -/
theorem c10_missing_ndb_no_fatal (fname tname : String) (t : Table)
    (h : "ndb_no" ∉ headerV1 t) :
    runV1 fname (some t) tname = RunResult.keyError "ndb_no" ∧
    outputOf (runV1 fname (some t) tname) = none := by
  have h1 := missingV1_ndb h
  exact ⟨runV1_keyErr h1, by rw [runV1_keyErr h1]; rfl⟩

/-- C10 witness: a header that even contains both nutrient anchors but
no ndb_no still aborts with the KeyError. -/
theorem c10_missing_ndb_no_fatal_witness :
    runV1 "f.xlsx" (some ⟨["food_id", "energy", "serv_weight_7"],
        [[some "1", some "2", some "3"]]⟩) "t" = RunResult.keyError "ndb_no" ∧
    outputOf (runV1 "f.xlsx" (some ⟨["food_id", "energy", "serv_weight_7"],
        [[some "1", some "2", some "3"]]⟩) "t") = none :=
  c10_missing_ndb_no_fatal "f.xlsx" "t" _ (by decide)

/-- C4 counterexample: a header with no energy column (and no ndb_no)
does not complete with a warning — the run aborts with the ndb_no
KeyError and produces no output, so the missing-anchor fallback alone
does not guarantee that the run completes. -/
theorem c4_counterexample :
    "energy" ∉ headerV1 ⟨["col_a"], [[some "x"]]⟩ ∧
    runV1 "f.xlsx" (some ⟨["col_a"], [[some "x"]]⟩) "t" = RunResult.keyError "ndb_no" ∧
    outputOf (runV1 "f.xlsx" (some ⟨["col_a"], [[some "x"]]⟩) "t") = none := by
  decide

/-- C4 amended: if an anchor column (energy or serv_weight_7) is absent
from the cleaned header, the classifier does not fail: the warning is
emitted and every column not covered by a name-based override is
classified VARCHAR(255); and provided the header does contain ndb_no,
the run still completes and produces output with one INSERT per row. -/
theorem c4_anchor_missing_degrades (fname tname : String) (t : Table)
    (hne : ¬("energy" ∈ headerV1 t ∧ "serv_weight_7" ∈ headerV1 t))
    (hndb : "ndb_no" ∈ headerV1 t) :
    warnV1 (headerV1 t) = true ∧
    (∀ c ∈ headerV1 t, c ≠ "food_id" → c ≠ "ndb_no" → c ≠ "last_modified" →
      assocGet (colTypesV1 (headerV1 t)) c = some "VARCHAR(255)") ∧
    ∃ s : SqlScript, runV1 fname (some t) tname = RunResult.ok true s ∧
      s.inserts.length = t.rows.length := by
  have hn := numericColsV1_none hne
  have hw : warnV1 (headerV1 t) = true := by
    unfold warnV1
    rw [hn]
    rfl
  refine ⟨hw, fun c hc h1 h2 h3 => assocGet_colTypesV1_fallback hn hc h1 h2 h3, ?_⟩
  refine ⟨{ dropSql := dropStmt tname
            createSql := createStmtOf tname (colTypesV1 (headerV1 t)) (headerV1 t)
            inserts := (litRowsV1 t).map (insertLineOf tname (headerV1 t)) }, ?_, ?_⟩
  · rw [runV1_ok (missingV1_nil hndb), hw]
  · show ((litRowsV1 t).map (insertLineOf tname (headerV1 t))).length = t.rows.length
    rw [List.length_map, litRowsV1_length]

/-- C4 witness: a two-column header with ndb_no but no anchors warns,
falls back to VARCHAR for the plain column, and still emits its row. -/
theorem c4_anchor_missing_degrades_witness :
    warnV1 (headerV1 ⟨["ndb_no", "col_b"], [[some "2", some "y"]]⟩) = true ∧
    assocGet (colTypesV1 (headerV1 ⟨["ndb_no", "col_b"], [[some "2", some "y"]]⟩))
      "col_b" = some "VARCHAR(255)" ∧
    ∃ s : SqlScript,
      runV1 "f.xlsx" (some ⟨["ndb_no", "col_b"], [[some "2", some "y"]]⟩) "t" =
        RunResult.ok true s ∧
      s.inserts.length = (⟨["ndb_no", "col_b"], [[some "2", some "y"]]⟩ : Table).rows.length := by
  have h := c4_anchor_missing_degrades "f.xlsx" "t"
    ⟨["ndb_no", "col_b"], [[some "2", some "y"]]⟩ (by decide) (by decide)
  exact ⟨h.1, h.2.1 "col_b" (by decide) (by decide) (by decide) (by decide), h.2.2⟩

/-- C6: whenever a run reaches emission, the number of INSERT statements
equals the number of data rows — each row becomes exactly the one
statement built from its literal list, which has one literal per header
column in header order; no row is skipped however many of its cells are
NULL.  The original variant always reaches emission on loaded input. -/
theorem c6_insert_per_row :
    (∀ fname tname : String, ∀ t : Table, ∀ w : Bool, ∀ s : SqlScript,
      runV1 fname (some t) tname = RunResult.ok w s →
      s.inserts.length = t.rows.length ∧
      ∀ i, i < t.rows.length →
        s.inserts.getD i "" = insertLineOf tname (headerV1 t) ((litRowsV1 t).getD i []) ∧
        ((litRowsV1 t).getD i []).length = (headerV1 t).length) ∧
    (∀ fname tname : String, ∀ t : Table,
      (insertsOf (runV2 fname (some t) tname)).length = t.rows.length ∧
      ∀ i, i < t.rows.length →
        (insertsOf (runV2 fname (some t) tname)).getD i "" =
          insertLineOf tname t.header ((litRowsV2 t).getD i []) ∧
        ((litRowsV2 t).getD i []).length = t.header.length) := by
  constructor
  · intro fname tname t w s hrun
    obtain ⟨-, -, hins⟩ := runV1_ok_inv hrun
    rw [hins]
    refine ⟨by rw [List.length_map, litRowsV1_length], fun i hi => ⟨?_, ?_⟩⟩
    · exact getD_map_of_lt _ _ [] "" (by rw [litRowsV1_length]; exact hi)
    · show ((litRowsCore true _ _ _ _).getD i []).length = _
      exact litRowsCore_row_length _ _ _ _ _ (by rw [cleanedRows_length]; exact hi)
  · intro fname tname t
    rw [runV2_ok]
    simp only [insertsOf]
    refine ⟨by rw [List.length_map, litRowsV2_length], fun i hi => ⟨?_, ?_⟩⟩
    · exact getD_map_of_lt _ _ [] "" (by rw [litRowsV2_length]; exact hi)
    · show ((litRowsCore false _ _ _ _).getD i []).length = _
      exact litRowsCore_row_length _ _ _ _ _ (by rw [cleanedRows_length]; exact hi)

/-- C6 witness: a two-row table (second row entirely placeholder) still
emits two INSERT statements in the fixed variant. -/
theorem c6_insert_per_row_witness :
    ((litRowsV1 ⟨["ndb_no"], [[some "4"], [some ""]]⟩).map
        (insertLineOf "t" (headerV1 ⟨["ndb_no"], [[some "4"], [some ""]]⟩))).length =
      (⟨["ndb_no"], [[some "4"], [some ""]]⟩ : Table).rows.length := by
  have h := (c6_insert_per_row.1 "f.xlsx" "t" ⟨["ndb_no"], [[some "4"], [some ""]]⟩
    (warnV1 (headerV1 ⟨["ndb_no"], [[some "4"], [some ""]]⟩))
    { dropSql := dropStmt "t"
      createSql := createStmtOf "t"
        (colTypesV1 (headerV1 ⟨["ndb_no"], [[some "4"], [some ""]]⟩))
        (headerV1 ⟨["ndb_no"], [[some "4"], [some ""]]⟩)
      inserts := (litRowsV1 ⟨["ndb_no"], [[some "4"], [some ""]]⟩).map
        (insertLineOf "t" (headerV1 ⟨["ndb_no"], [[some "4"], [some ""]]⟩)) }
    (runV1_ok (by decide))).1
  exact h

/-- C3: any cell whose raw text value, once semicolons are removed, is
exactly the empty string, NULL or 0 becomes the missing marker during
cleaning, and the literal emitted for that cell is the bare NULL
keyword, whatever the storage kind of its column — in both variants. -/
theorem c3_placeholder_cells_null :
    (∀ fname tname : String, ∀ t : Table, ∀ w : Bool, ∀ s : SqlScript, ∀ i j : Nat,
      ∀ v : String,
      runV1 fname (some t) tname = RunResult.ok w s →
      i < t.rows.length → j < (headerV1 t).length →
      cellAt t.rows i j = some v →
      (removeSemis v = "" ∨ removeSemis v = "NULL" ∨ removeSemis v = "0") →
      ((litRowsV1 t).getD i []).getD j "" = "NULL" ∧
      s.inserts.getD i "" = insertLineOf tname (headerV1 t) ((litRowsV1 t).getD i [])) ∧
    (∀ fname tname : String, ∀ t : Table, ∀ i j : Nat, ∀ v : String,
      i < t.rows.length → j < t.header.length →
      cellAt t.rows i j = some v →
      (removeSemis v = "" ∨ removeSemis v = "NULL" ∨ removeSemis v = "0") →
      ((litRowsV2 t).getD i []).getD j "" = "NULL" ∧
      (insertsOf (runV2 fname (some t) tname)).getD i "" =
        insertLineOf tname t.header ((litRowsV2 t).getD i [])) := by
  have hcl : ∀ (t : Table) (i j : Nat) (v : String), i < t.rows.length →
      cellAt t.rows i j = some v → cleanCell v = none →
      cellAt (cleanedRows t) i j = none := by
    intro t i j v hi hc hn
    rw [show cellAt (cleanedRows t) i j = cleanedCellAt t i j from rfl,
      cellAt_cleanedRows t j hi, hc]
    simpa using hn
  constructor
  · intro fname tname t w s i j v hrun hi hj hc hph
    have hna := hcl t i j v hi hc (cleanCell_none hph)
    have hi2 : i < (cleanedRows t).length := by rw [cleanedRows_length]; exact hi
    refine ⟨litAt_null_of_na true _ _ _ _ hi2 hj hna, ?_⟩
    obtain ⟨-, -, hins⟩ := runV1_ok_inv hrun
    rw [hins]
    exact getD_map_of_lt _ _ [] "" (by rw [litRowsV1_length]; exact hi)
  · intro fname tname t i j v hi hj hc hph
    have hna := hcl t i j v hi hc (cleanCell_none hph)
    have hi2 : i < (cleanedRows t).length := by rw [cleanedRows_length]; exact hi
    refine ⟨litAt_null_of_na false _ _ _ _ hi2 hj hna, ?_⟩
    rw [runV2_ok]
    simp only [insertsOf]
    exact getD_map_of_lt _ _ [] "" (by rw [litRowsV2_length]; exact hi)

/-- C3 witness: the cell value ;0; cleans to 0 and is emitted as NULL in
the fixed variant, in a VARCHAR column. -/
theorem c3_placeholder_cells_null_witness :
    ((litRowsV1 ⟨["ndb_no", "col_a"], [[some "1", some ";0;"]]⟩).getD 0 []).getD 1 "" =
      "NULL" := by
  exact (c3_placeholder_cells_null.1 "f.xlsx" "t" ⟨["ndb_no", "col_a"], [[some "1", some ";0;"]]⟩
    (warnV1 (headerV1 ⟨["ndb_no", "col_a"], [[some "1", some ";0;"]]⟩))
    { dropSql := dropStmt "t"
      createSql := createStmtOf "t"
        (colTypesV1 (headerV1 ⟨["ndb_no", "col_a"], [[some "1", some ";0;"]]⟩))
        (headerV1 ⟨["ndb_no", "col_a"], [[some "1", some ";0;"]]⟩)
      inserts := (litRowsV1 ⟨["ndb_no", "col_a"], [[some "1", some ";0;"]]⟩).map
        (insertLineOf "t" (headerV1 ⟨["ndb_no", "col_a"], [[some "1", some ";0;"]]⟩)) }
    0 1 ";0;" (runV1_ok (by decide)) (by decide) (by decide) (by decide) (by decide)).1

/-- The table refuting C2 in the original variant: a non-numeric ndb_no
value. -/
def c2Table : Table := ⟨["ndb_no"], [[some "abc"]]⟩

/-- C2 counterexample: in the original variant the ndb_no column is
classified INT, the cell abc cannot be coerced to a number, yet the
emitted literal is the raw unquoted token abc — not NULL — because that
variant only coerces DOUBLE columns. -/
theorem c2_counterexample :
    assocGet (colTypesV2 c2Table.header) "ndb_no" = some "INT" ∧
    parseNumStr "abc" = none ∧
    ((litRowsV2 c2Table).getD 0 []).getD 0 "" = "abc" ∧
    insertsOf (runV2 "f.xlsx" (some c2Table) "t") =
      ["INSERT INTO `t` (`ndb_no`) VALUES (abc);\n"] := by
  decide

/-- C2 amended: in the fixed variant every INT or DOUBLE column is
coerced and a cell whose cleaned value fails numeric parsing is emitted
as NULL while its row is still emitted; in the original variant the same
holds for the DOUBLE columns only (its INT column is never coerced). -/
theorem c2_coercion_failure_becomes_null :
    (∀ fname tname : String, ∀ t : Table, ∀ w : Bool, ∀ s : SqlScript, ∀ i j : Nat,
      runV1 fname (some t) tname = RunResult.ok w s →
      i < t.rows.length → j < (headerV1 t).length →
      numTypeOpt numTypesV1 (assocGet (colTypesV1 (headerV1 t))
        ((headerV1 t).getD j "")) = true →
      (cleanedCellAt t i j).bind parseNumStr = none →
      ((litRowsV1 t).getD i []).getD j "" = "NULL" ∧
      s.inserts.length = t.rows.length ∧
      s.inserts.getD i "" = insertLineOf tname (headerV1 t) ((litRowsV1 t).getD i [])) ∧
    (∀ fname tname : String, ∀ t : Table, ∀ i j : Nat,
      i < t.rows.length → j < t.header.length →
      numTypeOpt numTypesV2 (assocGet (colTypesV2 t.header) (t.header.getD j "")) = true →
      (cleanedCellAt t i j).bind parseNumStr = none →
      ((litRowsV2 t).getD i []).getD j "" = "NULL" ∧
      (insertsOf (runV2 fname (some t) tname)).length = t.rows.length ∧
      (insertsOf (runV2 fname (some t) tname)).getD i "" =
        insertLineOf tname t.header ((litRowsV2 t).getD i [])) := by
  constructor
  · intro fname tname t w s i j hrun hi hj htype hfail
    have hi2 : i < (cleanedRows t).length := by rw [cleanedRows_length]; exact hi
    refine ⟨litAt_null_of_numfail true _ _ _ _ hi2 hj htype hfail, ?_, ?_⟩
    · obtain ⟨-, -, hins⟩ := runV1_ok_inv hrun
      rw [hins, List.length_map, litRowsV1_length]
    · obtain ⟨-, -, hins⟩ := runV1_ok_inv hrun
      rw [hins]
      exact getD_map_of_lt _ _ [] "" (by rw [litRowsV1_length]; exact hi)
  · intro fname tname t i j hi hj htype hfail
    have hi2 : i < (cleanedRows t).length := by rw [cleanedRows_length]; exact hi
    refine ⟨litAt_null_of_numfail false _ _ _ _ hi2 hj htype hfail, ?_, ?_⟩
    · rw [runV2_ok]
      simp only [insertsOf]
      rw [List.length_map, litRowsV2_length]
    · rw [runV2_ok]
      simp only [insertsOf]
      exact getD_map_of_lt _ _ [] "" (by rw [litRowsV2_length]; exact hi)

/-- The witness table for the amended C2: an unparseable ndb_no value in
the fixed variant. -/
def c2wTable : Table := ⟨["ndb_no"], [[some "xy"]]⟩

/-- C2 witness: the fixed variant coerces the INT column, so the cell xy
is emitted as NULL and the row is still emitted. -/
theorem c2_coercion_failure_becomes_null_witness :
    ((litRowsV1 c2wTable).getD 0 []).getD 0 "" = "NULL" ∧
    ((litRowsV1 c2wTable).map (insertLineOf "t" (headerV1 c2wTable))).length =
      c2wTable.rows.length ∧
    ((litRowsV1 c2wTable).map (insertLineOf "t" (headerV1 c2wTable))).getD 0 "" =
      insertLineOf "t" (headerV1 c2wTable) ((litRowsV1 c2wTable).getD 0 []) := by
  exact c2_coercion_failure_becomes_null.1 "f.xlsx" "t" c2wTable
    (warnV1 (headerV1 c2wTable))
    { dropSql := dropStmt "t"
      createSql := createStmtOf "t" (colTypesV1 (headerV1 c2wTable)) (headerV1 c2wTable)
      inserts := (litRowsV1 c2wTable).map (insertLineOf "t" (headerV1 c2wTable)) }
    0 0 (runV1_ok (by decide)) (by decide) (by decide) (by decide) (by decide)

/-- The table refuting C5 in the original variant: an ndb_no cell with
surrounding whitespace and no numeric content. -/
def c5Table : Table := ⟨["ndb_no"], [[some " a "]]⟩

/-- C5 counterexample: in the original variant the INT-classified ndb_no
column emits its non-missing cell as the raw token, unquoted, with
surrounding whitespace kept and no numeric rendering at all — the value
is not even a number. -/
theorem c5_counterexample :
    assocGet (colTypesV2 c5Table.header) "ndb_no" = some "INT" ∧
    parseNumStr " a " = none ∧
    ((litRowsV2 c5Table).getD 0 []).getD 0 "" = " a " ∧
    pyStrip " a " ≠ " a " ∧
    insertsOf (runV2 "f.xlsx" (some c5Table) "t") =
      ["INSERT INTO `t` (`ndb_no`) VALUES ( a );\n"] := by
  decide

/-- C5 amended: for every emitted cell of the fixed variant, an INT or
DOUBLE column renders its non-missing values as stripped numeric
renderings (quote-free), and every other storage kind quotes the value
with each quote and backslash doubled; the original variant renders its
DOUBLE columns the same way (without the strip call) and quotes its
non-numeric kinds identically, but its INT column emits non-missing
values raw and unaltered. -/
theorem c5_literal_shapes :
    (∀ fname tname : String, ∀ t : Table, ∀ w : Bool, ∀ s : SqlScript, ∀ i j : Nat,
      ∀ n : PyNum,
      runV1 fname (some t) tname = RunResult.ok w s →
      i < t.rows.length → j < (headerV1 t).length →
      (assocGet (colTypesV1 (headerV1 t)) ((headerV1 t).getD j "") = some "INT" ∨
        assocGet (colTypesV1 (headerV1 t)) ((headerV1 t).getD j "") = some "DOUBLE") →
      (cleanedCellAt t i j).bind parseNumStr = some n →
      ∃ m : PyNum, (m = n ∨ m = toFloatNum n) ∧
        ((litRowsV1 t).getD i []).getD j "" = pyStrip (renderNum m) ∧
        squote ∉ (((litRowsV1 t).getD i []).getD j "").data) ∧
    (∀ fname tname : String, ∀ t : Table, ∀ i j : Nat, ∀ n : PyNum,
      i < t.rows.length → j < t.header.length →
      assocGet (colTypesV2 t.header) (t.header.getD j "") = some "DOUBLE" →
      (cleanedCellAt t i j).bind parseNumStr = some n →
      ∃ m : PyNum, (m = n ∨ m = toFloatNum n) ∧
        ((litRowsV2 t).getD i []).getD j "" = renderNum m ∧
        squote ∉ (((litRowsV2 t).getD i []).getD j "").data) ∧
    (∀ fname tname : String, ∀ t : Table, ∀ w : Bool, ∀ s : SqlScript, ∀ i j : Nat,
      ∀ v : String,
      runV1 fname (some t) tname = RunResult.ok w s →
      i < t.rows.length → j < (headerV1 t).length →
      ¬(assocGet (colTypesV1 (headerV1 t)) ((headerV1 t).getD j "") = some "INT" ∨
        assocGet (colTypesV1 (headerV1 t)) ((headerV1 t).getD j "") = some "DOUBLE") →
      cleanedCellAt t i j = some v →
      ((litRowsV1 t).getD i []).getD j "" =
        String.mk [squote] ++ sqlEscape v ++ String.mk [squote] ∧
      (sqlEscape v).data = doubleEsc v.data) ∧
    (∀ fname tname : String, ∀ t : Table, ∀ i j : Nat, ∀ v : String,
      i < t.rows.length → j < t.header.length →
      ¬(assocGet (colTypesV2 t.header) (t.header.getD j "") = some "INT" ∨
        assocGet (colTypesV2 t.header) (t.header.getD j "") = some "DOUBLE") →
      cleanedCellAt t i j = some v →
      ((litRowsV2 t).getD i []).getD j "" =
        String.mk [squote] ++ sqlEscape v ++ String.mk [squote] ∧
      (sqlEscape v).data = doubleEsc v.data) ∧
    (∀ fname tname : String, ∀ t : Table, ∀ i j : Nat, ∀ v : String,
      i < t.rows.length → j < t.header.length →
      assocGet (colTypesV2 t.header) (t.header.getD j "") = some "INT" →
      cleanedCellAt t i j = some v →
      ((litRowsV2 t).getD i []).getD j "" = v) := by
  refine ⟨?_, ?_, ?_, ?_, ?_⟩
  · intro fname tname t w s i j n hrun hi hj hrender hp
    have hi2 : i < (cleanedRows t).length := by rw [cleanedRows_length]; exact hi
    have htype := (numTypeOptV1_iff _).mpr hrender
    obtain ⟨m, hm, hlit⟩ := litAt_num true _ numTypesV1 _ (cleanedRows t) hi2 hj htype hrender hp
    rw [if_pos rfl] at hlit
    have hlit2 : ((litRowsV1 t).getD i []).getD j "" = pyStrip (renderNum m) := hlit
    refine ⟨m, hm, hlit2, ?_⟩
    rw [hlit2]
    exact squote_not_mem_pyStrip (squote_not_mem_renderNum m)
  · intro fname tname t i j n hi hj hdouble hp
    have hi2 : i < (cleanedRows t).length := by rw [cleanedRows_length]; exact hi
    have htype := (numTypeOptV2_iff _).mpr hdouble
    obtain ⟨m, hm, hlit⟩ :=
      litAt_num false _ numTypesV2 _ (cleanedRows t) hi2 hj htype (Or.inr hdouble) hp
    rw [if_neg (by simp)] at hlit
    have hlit2 : ((litRowsV2 t).getD i []).getD j "" = renderNum m := hlit
    refine ⟨m, hm, hlit2, ?_⟩
    rw [hlit2]
    exact squote_not_mem_renderNum m
  · intro fname tname t w s i j v hrun hi hj hrender hv
    have hi2 : i < (cleanedRows t).length := by rw [cleanedRows_length]; exact hi
    have hnum : numTypeOpt numTypesV1 (assocGet (colTypesV1 (headerV1 t))
        ((headerV1 t).getD j "")) = false :=
      Bool.eq_false_iff.mpr (fun hx => hrender ((numTypeOptV1_iff _).mp hx))
    exact ⟨litAt_text true _ _ _ _ hi2 hj hrender hnum hv, sqlEscape_data v⟩
  · intro fname tname t i j v hi hj hrender hv
    have hi2 : i < (cleanedRows t).length := by rw [cleanedRows_length]; exact hi
    have hnum : numTypeOpt numTypesV2 (assocGet (colTypesV2 t.header)
        (t.header.getD j "")) = false :=
      Bool.eq_false_iff.mpr (fun hx => hrender (Or.inr ((numTypeOptV2_iff _).mp hx)))
    exact ⟨litAt_text false _ _ _ _ hi2 hj hrender hnum hv, sqlEscape_data v⟩
  · intro fname tname t i j v hi hj hint hv
    have hi2 : i < (cleanedRows t).length := by rw [cleanedRows_length]; exact hi
    have hnum : numTypeOpt numTypesV2 (assocGet (colTypesV2 t.header)
        (t.header.getD j "")) = false := by
      rw [hint]
      decide
    have h := litAt_rawnum false _ numTypesV2 _ (cleanedRows t) hi2 hj hnum (Or.inl hint) hv
    rw [if_neg (by simp)] at h
    exact h

/-- C5 witness: in the fixed variant a DOUBLE column (energy) renders
the parsed value 1.5 stripped and quote-free. -/
theorem c5_literal_shapes_witness :
    ∃ m : PyNum, (m = PyNum.f 15 1 ∨ m = toFloatNum (PyNum.f 15 1)) ∧
      ((litRowsV1 ⟨["ndb_no", "energy", "serv_weight_7"],
          [[some "3", some "1.5", some "2"]]⟩).getD 0 []).getD 1 "" =
        pyStrip (renderNum m) ∧
      squote ∉ (((litRowsV1 ⟨["ndb_no", "energy", "serv_weight_7"],
          [[some "3", some "1.5", some "2"]]⟩).getD 0 []).getD 1 "").data := by
  exact c5_literal_shapes.1 "f.xlsx" "t" ⟨["ndb_no", "energy", "serv_weight_7"],
      [[some "3", some "1.5", some "2"]]⟩
    (warnV1 (headerV1 ⟨["ndb_no", "energy", "serv_weight_7"],
      [[some "3", some "1.5", some "2"]]⟩))
    { dropSql := dropStmt "t"
      createSql := createStmtOf "t"
        (colTypesV1 (headerV1 ⟨["ndb_no", "energy", "serv_weight_7"],
          [[some "3", some "1.5", some "2"]]⟩))
        (headerV1 ⟨["ndb_no", "energy", "serv_weight_7"],
          [[some "3", some "1.5", some "2"]]⟩)
      inserts := (litRowsV1 ⟨["ndb_no", "energy", "serv_weight_7"],
          [[some "3", some "1.5", some "2"]]⟩).map
        (insertLineOf "t" (headerV1 ⟨["ndb_no", "energy", "serv_weight_7"],
          [[some "3", some "1.5", some "2"]]⟩)) }
    0 1 (PyNum.f 15 1) (runV1_ok (by decide)) (by decide) (by decide) (by decide) (by decide)

/-- The failing input for C8: a well-formed table that does contain the
food_id column (and the ndb_no column the fixed variant needs to reach
emission). -/
def c8bTable : Table := ⟨["food_id", "ndb_no"], [[some "B2", some "8"]]⟩

set_option maxRecDepth 100000 in
/-- C8: the classifier stores the primary-key marker in the type dict
for food_id, but the emitter strips the marker from the stored type
before writing each column definition and never re-emits the constraint
elsewhere, so the CREATE TABLE statement of this run contains no
PRIMARY KEY constraint at all — zero column definitions carry it; only
the NOT NULL marking of food_id survives, every other column being
NULL. -/
theorem c8_primary_key_stripped_from_create :
    assocGet (colTypesV1 (headerV1 c8bTable)) "food_id" =
      some "VARCHAR(50) PRIMARY KEY" ∧
    colDef (colTypesV1 (headerV1 c8bTable)) "food_id" =
      "  `food_id` VARCHAR(50) NOT NULL" ∧
    (colDefsOf (colTypesV1 (headerV1 c8bTable)) (headerV1 c8bTable)).countP
      (fun d => containsSub d "PRIMARY KEY") = 0 ∧
    (outputOf (runV1 "f.xlsx" (some c8bTable) "t")).map SqlScript.createSql =
      some ("CREATE TABLE `t` (\n  `food_id` VARCHAR(50) NOT NULL,\n" ++
        "  `ndb_no` INT NULL\n) ENGINE=InnoDB DEFAULT CHARSET=utf8mb4;\n\n") ∧
    containsSub ("CREATE TABLE `t` (\n  `food_id` VARCHAR(50) NOT NULL,\n" ++
      "  `ndb_no` INT NULL\n) ENGINE=InnoDB DEFAULT CHARSET=utf8mb4;\n\n")
      "PRIMARY KEY" = false := by
  decide
